import Mathlib

/-!
# Verification of `cow.py`, a local test harness

Shallow embedding of the competitive-programming test harness `cow.py`
(sample parsing, output normalisation, the `check` routine, the build
probe/skip logic and the main sample loop), together with theorems
settling the specification claims.

Strings are modelled by Lean `String`; Python `str.strip()` is modelled
by `pyStrip` below (trimming whitespace characters at both ends).
-/

namespace Cow

/-- Whitespace in the sense of Python's `str.strip()`. -/
def isWS (c : Char) : Bool :=
  c = ' ' || c = '\t' || c = '\n' || c = '\r' || c = '\x0b' || c = '\x0c'

/-- Drop leading whitespace from a character list. -/
def lstripC (l : List Char) : List Char := l.dropWhile isWS

/-- Drop trailing whitespace from a character list. -/
def rstripC (l : List Char) : List Char := (l.reverse.dropWhile isWS).reverse

/-- Strip both ends, as Python's `str.strip()`. -/
def stripC (l : List Char) : List Char := lstripC (rstripC l)

/-- Model of Python `s.strip()`. -/
def pyStrip (s : String) : String := String.mk (stripC s.data)

/-!
## The sample-file splitter

`parse_samples` (cow.py lines 29–39) splits the sample file's text with
`re.split(r"%{2,}\n", text)`.  The regex scans left to right; a maximal
run of `n ≥ 2` percent signs immediately followed by a newline is a
delimiter (the greedy `%{2,}` consumes the whole run), and a percent run
not followed by a newline, or of length 1, is ordinary text.  We embed
this as a character-level state machine: `pct` counts the pending run of
percent signs, `cur` is the current segment (reversed), `segs` the
completed segments.
-/

structure SplitState where
  segs : List (List Char)
  cur : List Char
  pct : Nat
  deriving Repr, DecidableEq

/-- One step of the `%{2,}\n` splitter. -/
def splitStep (st : SplitState) (c : Char) : SplitState :=
  if c = '%' then
    { st with pct := st.pct + 1 }
  else if c = '\n' ∧ 2 ≤ st.pct then
    { segs := st.segs ++ [st.cur.reverse], cur := [], pct := 0 }
  else
    { st with cur := c :: (List.replicate st.pct '%' ++ st.cur), pct := 0 }

/-- Run the splitter over a character list. -/
def reSplitAux (l : List Char) : SplitState :=
  l.foldl splitStep ⟨[], [], 0⟩

/-- The segments produced by `re.split(r"%{2,}\n", ·)` on a character list. -/
def reSplitChars (l : List Char) : List (List Char) :=
  let st := reSplitAux l
  st.segs ++ [st.cur.reverse ++ List.replicate st.pct '%']

/-- Model of `re.split(r"%{2,}\n", text)` (cow.py line 32). -/
def reSplit (text : String) : List String :=
  (reSplitChars text.data).map String.mk

/-- Pair consecutive segments, stripping each component
(the loop of cow.py lines 35–38; the `except: pass` drops an unpaired
trailing element, which cannot occur after padding). -/
def pairUp : List String → List (String × String)
  | a :: b :: rest => (pyStrip a, pyStrip b) :: pairUp rest
  | _ => []

/-- Model of `parse_samples` (cow.py lines 29–39): split the file text on
`%{2,}\n`, pad an odd segment list with an empty segment, and pair up. -/
def parse_samples (text : String) : List (String × String) :=
  let lst := reSplit text
  let lst := if lst.length % 2 = 1 then lst ++ [""] else lst
  pairUp lst

/-!
## Output normalisation in `check`

cow.py lines 52–54: the captured stdout is decoded and `.strip()`ped,
then (when `ignore_debug` is set) every line that starts with the escape
character `"\x1b"` or with `"DEBUG"` is removed and the remaining lines
are re-joined with `"\n"`.  No further trimming happens after the filter.
-/

/-- Python `s.split("\n")` on a character list: split at every newline
(`"".split("\n")` is `[""]`, so the empty list yields `[[]]`). -/
def splitNl : List Char → List (List Char)
  | [] => [[]]
  | c :: cs =>
    match splitNl cs with
    | s :: ss => if c = '\n' then [] :: s :: ss else (c :: s) :: ss
    | [] => [[c]]

/-- Python `"\n".join(lines)` on character lists. -/
def joinNl : List (List Char) → List Char
  | [] => []
  | [s] => s
  | s :: t :: rest => s ++ '\n' :: joinNl (t :: rest)

/-- The line filter of cow.py line 54: keep a line unless it starts with
the escape character `"\x1b"` or with `"DEBUG"`. -/
def keepLine (line : List Char) : Bool :=
  !(List.isPrefixOf ['\x1b'] line) && !(List.isPrefixOf ['D', 'E', 'B', 'U', 'G'] line)

/-- cow.py line 54: split on `"\n"`, filter out debug lines, re-join
with `"\n"`. -/
def stripDebugLines (s : String) : String :=
  String.mk (joinNl ((splitNl s.data).filter keepLine))

/-- The text `check` compares and length-checks (cow.py lines 52–54):
strip the decoded output first, then drop debug lines. -/
def processOutput (raw : String) : String :=
  stripDebugLines (pyStrip raw)

/-- Modelled from the spec: a line that "begins with an ANSI escape
sequence or the literal token DEBUG". -/
def isDebugLine (line : List Char) : Bool :=
  List.isPrefixOf ['\x1b'] line || List.isPrefixOf ['D', 'E', 'B', 'U', 'G'] line

/-- Modelled from the spec: "remove any output lines that begin with an
ANSI escape sequence or the literal token DEBUG". -/
def removeDebugLines : List (List Char) → List (List Char)
  | [] => []
  | l :: ls => if isDebugLine l then removeDebugLines ls else l :: removeDebugLines ls

/-- Modelled from the spec's words in claim C4: filter the captured
output's lines first, "and then" trim the filtered result. -/
def specFilterThenTrim (raw : String) : String :=
  pyStrip (String.mk (joinNl (removeDebugLines (splitNl raw.data))))

/-- Modelled from the spec, as amended: trim the captured output first,
then filter out the debug lines, with no further trim. -/
def specTrimThenFilter (raw : String) : String :=
  String.mk (joinNl (removeDebugLines (splitNl (pyStrip raw).data)))

/-!
## The `check` routine (cow.py lines 42–88)

The subprocess interaction is abstracted by a `ProcResult`: the child
either produces decoded stdout with exit status 0 (`check_output`
returns), exits non-zero (`CalledProcessError`), or hits the time limit
(`TimeoutExpired`).  `check` either returns a boolean or re-raises the
`CalledProcessError` (only when `ignore_runtime_error` is false); the
output-limit `RuntimeError` raised at line 61 is caught by the
`except Exception` clause of the same `try` and turned into `False`.
-/

inductive ProcResult where
  /-- Decoded stdout of a zero-exit run: `subprocess.check_output` returned. -/
  | output (raw : String)
  /-- the child exited non-zero: `subprocess.CalledProcessError`. -/
  | nonzeroExit
  /-- the time limit elapsed: `subprocess.TimeoutExpired`. -/
  | timedOut
  deriving Repr, DecidableEq

inductive CheckResult where
  /-- Normal return of `check` with this boolean. -/
  | ret (b : Bool)
  /-- Re-raise of the `CalledProcessError` by `check` (line 81). -/
  | raisedCalledProcess
  deriving Repr, DecidableEq

/-- Model of `check` (cow.py lines 42–88).  `output_limit` is compared
against `len(output)`, the character count of the filtered text. -/
def check (proc : ProcResult) (test_output : String) (output_limit : Nat)
    (ignore_runtime_error : Bool) (ignore_debug : Bool) : CheckResult :=
  match proc with
  | .timedOut => .ret false
  | .nonzeroExit =>
      if ignore_runtime_error then .ret false else .raisedCalledProcess
  | .output raw =>
      if ignore_debug then
        let out := processOutput raw
        if out.length > output_limit then .ret false
        else if out = test_output then .ret true
        else if test_output = "" then .ret true
        else .ret false
      else .ret true

/-!
## The main sample loop (cow.py lines 160–176)

Each sample's execution is abstracted by a `RunResult`: `check` returned
`True`, returned `False`, or raised (the `CalledProcessError` escaping
`check`).  The `except:` handler prints "Fatal Error!" and only when the
build command starts with `"g++"` does it rebuild with `-g`, re-run the
failing sample once with `ignore_runtime_error=True`, and `break`; for
any other build command the loop simply continues with the next sample.
-/

inductive RunResult where
  | ok
  | fail
  | crash
  deriving Repr, DecidableEq

/-- Map what `check` did on a sample to the loop-level abstraction. -/
def runResultOfCheck : CheckResult → RunResult
  | .ret true => .ok
  | .ret false => .fail
  | .raisedCalledProcess => .crash

/-- Aggregate outcome of the sample loop: `correct` passing samples,
`attempted` samples actually executed, `diag` diagnostic re-runs
(`ignore_runtime_error=True` calls). -/
structure BatchTrace where
  correct : Nat
  attempted : Nat
  diag : Nat
  deriving Repr, DecidableEq

/-- Model of the loop of cow.py lines 160–174.  `gpp` is
`compiler.startswith("g++")`; `results.get i` is what `check` does on the
`i`-th sample of the (post-combine) sample list. -/
def batchLoop (gpp : Bool) : List RunResult → BatchTrace
  | [] => ⟨0, 0, 0⟩
  | r :: rest =>
    match r with
    | .ok => let t := batchLoop gpp rest
             ⟨t.correct + 1, t.attempted + 1, t.diag⟩
    | .fail => let t := batchLoop gpp rest
               ⟨t.correct, t.attempted + 1, t.diag⟩
    | .crash =>
      if gpp then ⟨0, 1, 1⟩
      else let t := batchLoop gpp rest
           ⟨t.correct, t.attempted + 1, t.diag⟩

/-- The pair printed by cow.py line 176:
`"%d out of %d tests passed." % (correct, len(samples))`. -/
def finalTally (gpp : Bool) (results : List RunResult) : Nat × Nat :=
  ((batchLoop gpp results).correct, results.length)

/-!
## Build-target probe (cow.py lines 18–21 and 113–126)

`CONFIG` is an insertion-ordered dict, iterated cpp first, then py.  The
probe loop has no `break` and no emptiness test inside: every template
whose source file exists overwrites the four variables, so the **last**
existing convention wins.
-/

/-- The cpp entry of `CONFIG`, formatted with the project name. -/
def cppTemplate (name : String) : String × String × String × String :=
  (name ++ ".cpp",
   "g++-7 -std=c++17 -o " ++ name ++ " -O2 -Dzerol -Dultmaster -fmax-errors=3 " ++ name ++ ".cpp",
   "./" ++ name,
   name)

/-- The py entry of `CONFIG`, formatted with the project name. -/
def pyTemplate (name : String) : String × String × String × String :=
  (name ++ ".py", "", "python3 " ++ name ++ ".py", "")

/-- Iteration order of `CONFIG.values()` (cow.py lines 18–21). -/
def CONFIG (name : String) : List (String × String × String × String) :=
  [cppTemplate name, pyTemplate name]

/-- Model of the probe loop (cow.py lines 113–120): starting from four
empty strings, overwrite with each template whose source file exists.
`ex f = true` models `os.path.exists(f)`. -/
def probeTarget (name : String) (ex : String → Bool) :
    String × String × String × String :=
  (CONFIG name).foldl (fun acc t => if ex t.1 then t else acc) ("", "", "", "")

/-!
## Build-skip decision (cow.py lines 128–132)

With a non-empty compile command, compile exactly when the artifact is
missing or strictly older than the source; otherwise print
"Jumping over compilation phase...".  Modification timestamps are
modelled as integers.
-/

inductive CompilePhase where
  /-- the build command was invoked (`subprocess.run(compiler, ...)`). -/
  | ran
  /-- "Jumping over compilation phase..." was printed. -/
  | bypassed
  deriving Repr, DecidableEq

/-- The condition of cow.py line 128. -/
def shouldCompile (compiler dest filename : String) (ex : String → Bool)
    (mtime : String → Int) : Bool :=
  (compiler != "") && (!(ex dest) || decide (mtime dest < mtime filename))

/-- Model of cow.py lines 128–132. -/
def compileStep (compiler dest filename : String) (ex : String → Bool)
    (mtime : String → Int) : CompilePhase :=
  if shouldCompile compiler dest filename ex mtime then .ran else .bypassed

/-!
## Single-test selection (cow.py lines 140–141)

`if args.test: samples = [samples[args.test - 1]]` — a Python index that
may be negative (indexing from the end) and raises `IndexError` when out
of range; `none` models the uncaught `IndexError`.
-/

/-- Python list indexing `l[i]`: negative indices count from the end;
`none` models `IndexError`. -/
def pyIndex {α : Type} (l : List α) (i : Int) : Option α :=
  if 0 ≤ i then l.get? i.toNat
  else if 0 ≤ (l.length : Int) + i then l.get? ((l.length : Int) + i).toNat
  else none

/-- Model of cow.py lines 140–141: `test = 0` keeps all samples, any
other value selects the single sample `samples[test - 1]`; `none` is the
uncaught `IndexError` aborting before any sample runs. -/
def selectTest (samples : List (String × String)) (test : Int) :
    Option (List (String × String)) :=
  if test = 0 then some samples
  else (pyIndex samples (test - 1)).map (fun s => [s])

/-!
## The ordered sample combiner (cow.py lines 145–155)

For policy "ordered" (and "shuffle", after the shuffle) the inputs are
concatenated with trailing newlines, likewise the outputs, both are
stripped, and with `--case-num` the original sample count is prepended
to the input on its own line.
-/

/-- Model of cow.py lines 145–155 (given the policy is "ordered" or
"shuffle", after any shuffle has been applied). -/
def orderedCombine (samples : List (String × String)) (caseNumber : Bool) :
    List (String × String) :=
  let sampleIn := pyStrip (samples.foldl (fun acc p => acc ++ p.1 ++ "\n") "")
  let sampleOut := pyStrip (samples.foldl (fun acc p => acc ++ p.2 ++ "\n") "")
  let sampleIn := if caseNumber then toString samples.length ++ "\n" ++ sampleIn
                  else sampleIn
  [(sampleIn, sampleOut)]

/-!
## Theorems
-/

/-- C1 (counterexample).  The claim says that when both `a.cpp` and
`a.py` exist the selected template is the cpp one.  On a filesystem
where both exist, the probe loop of cow.py lines 115–120 (which has no
`break`) selects the **py** template: the selected source filename is
`"a.py"`, the build command is empty and the run command is
`"python3 a.py"`, none of which match the cpp template. -/
theorem probe_both_exist_selects_py :
    probeTarget "a" (fun f => f == "a.cpp" || f == "a.py") = pyTemplate "a" ∧
    (probeTarget "a" (fun f => f == "a.cpp" || f == "a.py")).1 = "a.py" ∧
    probeTarget "a" (fun f => f == "a.cpp" || f == "a.py") ≠ cppTemplate "a" := by
  decide

/-- C1 (amended).  The probe loop overwrites the selected template with
every convention whose source file exists, in the fixed order cpp then
py, so the **last** existing convention wins: the py template whenever
`<name>.py` exists, otherwise the cpp template whenever `<name>.cpp`
exists, otherwise the four empty strings of cow.py line 113. -/
theorem probe_selects_last_existing (name : String) (ex : String → Bool) :
    probeTarget name ex =
      (if ex (name ++ ".py") then pyTemplate name
       else if ex (name ++ ".cpp") then cppTemplate name
       else ("", "", "", "")) := by
  simp only [probeTarget, CONFIG, List.foldl]
  cases hc : ex (cppTemplate name).1 <;> cases hp : ex (pyTemplate name).1 <;>
    (simp only [cppTemplate, pyTemplate] at hc hp; simp [hc, hp])

/-- C8.  With a non-empty build command, the build is invoked exactly
when the artifact is absent or strictly older (by modification
timestamp) than the source, and otherwise the compile phase is reported
as bypassed (cow.py lines 128–132). -/
theorem compile_invoked_iff_stale (compiler dest filename : String)
    (ex : String → Bool) (mtime : String → Int) (h : compiler ≠ "") :
    (compileStep compiler dest filename ex mtime = .ran ↔
      (ex dest = false ∨ mtime dest < mtime filename)) ∧
    (compileStep compiler dest filename ex mtime = .bypassed ↔
      (ex dest = true ∧ mtime filename ≤ mtime dest)) := by
  have hc : (compiler != "") = true := bne_iff_ne.mpr h
  by_cases hlt : mtime dest < mtime filename
  · have hle : ¬ mtime filename ≤ mtime dest := not_le.mpr hlt
    cases hed : ex dest <;> simp [compileStep, shouldCompile, hc, hed, hlt, hle]
  · have hle : mtime filename ≤ mtime dest := not_lt.mp hlt
    cases hed : ex dest <;> simp [compileStep, shouldCompile, hc, hed, hlt, hle]

/-- C8 (witness). -/
theorem compile_invoked_iff_stale_witness :
    ("g++" : String) ≠ "" ∧
    (compileStep "g++" "a" "a.cpp" (fun _ => true) (fun f => if f == "a.cpp" then 5 else 3)
        = .ran ↔
      ((fun _ => true) "a" = false ∨
        (fun f : String => if f == "a.cpp" then (5 : Int) else 3) "a" <
          (fun f : String => if f == "a.cpp" then (5 : Int) else 3) "a.cpp")) :=
  ⟨by decide,
   (compile_invoked_iff_stale "g++" "a" "a.cpp" (fun _ => true)
      (fun f => if f == "a.cpp" then 5 else 3) (by decide)).1⟩

/-- C10.  A single-test index strictly greater than the number of parsed
samples makes `samples[args.test - 1]` (cow.py line 141) raise an
uncaught `IndexError` — modelled by `selectTest` returning `none` — so
the run aborts before any sample is executed; no bounds check guards the
1-indexed selector. -/
theorem selectTest_out_of_range (samples : List (String × String)) (test : Int)
    (h : (samples.length : Int) < test) :
    selectTest samples test = none := by
  have ht0 : ¬ test = 0 := by omega
  have h1 : 0 ≤ test - 1 := by omega
  have h2 : samples.get? (test - 1).toNat = none := List.get?_eq_none.mpr (by omega)
  simp only [selectTest, if_neg ht0, pyIndex, if_pos h1, h2, Option.map_none']

/-- C10 (witness). -/
theorem selectTest_out_of_range_witness :
    (([(("a" : String), ("b" : String))].length : Int) < 3 ∧
      selectTest [("a", "b")] 3 = none) :=
  ⟨by decide, selectTest_out_of_range [("a", "b")] 3 (by decide)⟩

/-- With `gpp = false` (no `g++` build command) the sample loop never
takes the recovery branch: every sample is attempted and no diagnostic
re-run happens. -/
theorem batchLoop_false_runs_all :
    ∀ l : List RunResult,
      (batchLoop false l).attempted = l.length ∧ (batchLoop false l).diag = 0
  | [] => by simp [batchLoop]
  | r :: rest => by
    have ih := batchLoop_false_runs_all rest
    cases r <;> simp [batchLoop, ih.1, ih.2]

/-- With `gpp = true`, the first crashing sample is re-run once in
diagnostic mode and the loop breaks: `attempted` counts only the
samples up to and including the crash. -/
theorem batchLoop_true_stops_at_crash :
    ∀ (pre rest : List RunResult), (∀ r ∈ pre, r ≠ RunResult.crash) →
      (batchLoop true (pre ++ RunResult.crash :: rest)).attempted = pre.length + 1 ∧
      (batchLoop true (pre ++ RunResult.crash :: rest)).diag = 1
  | [], rest, _ => by simp [batchLoop]
  | r :: pre, rest, h => by
    have hr : r ≠ RunResult.crash := h r (by simp)
    have ih := batchLoop_true_stops_at_crash pre rest (fun x hx => h x (by simp [hx]))
    cases r with
    | ok => simp [batchLoop, ih.1, ih.2]
    | fail => simp [batchLoop, ih.1, ih.2]
    | crash => exact absurd rfl hr

/-- The pass counter never exceeds the number of attempted samples. -/
theorem batchLoop_correct_le_attempted :
    ∀ (gpp : Bool) (l : List RunResult),
      (batchLoop gpp l).correct ≤ (batchLoop gpp l).attempted
  | _, [] => by simp [batchLoop]
  | gpp, r :: rest => by
    have ih := batchLoop_correct_le_attempted gpp rest
    cases r with
    | ok => simp [batchLoop]; omega
    | fail => simp [batchLoop]; omega
    | crash =>
      cases gpp with
      | true => simp [batchLoop]
      | false => simp [batchLoop]; omega

/-- The number of attempted samples never exceeds the sample count. -/
theorem batchLoop_attempted_le_length :
    ∀ (gpp : Bool) (l : List RunResult),
      (batchLoop gpp l).attempted ≤ l.length
  | _, [] => by simp [batchLoop]
  | gpp, r :: rest => by
    have ih := batchLoop_attempted_le_length gpp rest
    cases r with
    | ok => simp [batchLoop]; omega
    | fail => simp [batchLoop]; omega
    | crash =>
      cases gpp with
      | true => simp [batchLoop]
      | false => simp [batchLoop]; omega

/-- C2 (counterexample).  The claim asserts the batch ends early after
the first crash for **every** selected build target.  For an interpreted
target (the py template's build command `""` does not start with
`"g++"`, so `gpp = false`), a batch whose first sample crashes and which
has one more sample attempts **2** samples and performs no diagnostic
re-run: the loop continues past the crash. -/
theorem crash_continues_for_interpreted :
    (batchLoop false [RunResult.crash, RunResult.ok]).attempted = 2 ∧
    (batchLoop false [RunResult.crash, RunResult.ok]).diag = 0 ∧
    ¬ (batchLoop false [RunResult.crash, RunResult.ok]).attempted ≤ 1 := by
  decide

/-- C2 (amended).  After the first crashing sample the batch ends early
— with exactly one diagnostic re-run of that sample — **only when the
build command starts with `"g++"`** (the `break` of cow.py line 174 sits
inside `if compiler.startswith("g++")`); for any other target the crash
is merely printed and every remaining sample still runs, with no
diagnostic re-run. -/
theorem crash_recovery_policy (pre rest : List RunResult)
    (hpre : ∀ r ∈ pre, r ≠ RunResult.crash) :
    (batchLoop true (pre ++ RunResult.crash :: rest)).attempted = pre.length + 1 ∧
    (batchLoop true (pre ++ RunResult.crash :: rest)).diag = 1 ∧
    (batchLoop false (pre ++ RunResult.crash :: rest)).attempted =
      (pre ++ RunResult.crash :: rest).length ∧
    (batchLoop false (pre ++ RunResult.crash :: rest)).diag = 0 :=
  ⟨(batchLoop_true_stops_at_crash pre rest hpre).1,
   (batchLoop_true_stops_at_crash pre rest hpre).2,
   (batchLoop_false_runs_all _).1,
   (batchLoop_false_runs_all _).2⟩

/-- C2 (witness). -/
theorem crash_recovery_policy_witness :
    (∀ r ∈ [RunResult.ok], r ≠ RunResult.crash) ∧
    (batchLoop true ([RunResult.ok] ++ RunResult.crash :: [RunResult.ok, RunResult.fail])).attempted
      = 2 :=
  ⟨by decide,
   (crash_recovery_policy [RunResult.ok] [RunResult.ok, RunResult.fail] (by decide)).1⟩

/-- C5 (counterexample).  The claim says the printed `<total>` is the
number of samples actually attempted even when recovery halted the
batch.  With a `g++` target, a first-sample crash and one remaining
sample, only 1 sample is attempted but the tally of cow.py line 176
prints `len(samples) = 2` as the total. -/
theorem tally_total_is_not_attempted :
    (finalTally true [RunResult.crash, RunResult.ok]).2 = 2 ∧
    (batchLoop true [RunResult.crash, RunResult.ok]).attempted = 1 ∧
    (finalTally true [RunResult.crash, RunResult.ok]).2 ≠
      (batchLoop true [RunResult.crash, RunResult.ok]).attempted := by
  decide

/-- C5 (amended).  The final line prints
`"<passed> out of <total> tests passed."` where `<passed>` is the pass
counter of the loop and `<total>` is `len(samples)`, the length of the
full (post-combine) sample list — not the attempted count: when
recovery halts the batch early the attempted count can be smaller, the
printed total still being the full sample count. -/
theorem tally_prints_full_length (gpp : Bool) (results : List RunResult) :
    (finalTally gpp results).2 = results.length ∧
    (finalTally gpp results).1 = (batchLoop gpp results).correct ∧
    (batchLoop gpp results).correct ≤ (batchLoop gpp results).attempted ∧
    (batchLoop gpp results).attempted ≤ results.length ∧
    (batchLoop false results).attempted = results.length :=
  ⟨rfl, rfl, batchLoop_correct_le_attempted gpp results,
   batchLoop_attempted_le_length gpp results,
   (batchLoop_false_runs_all results).1⟩

/-- Stripping only looks at the character data. -/
theorem pyStrip_congr {a b : String} (h : a.data = b.data) : pyStrip a = pyStrip b := by
  simp [pyStrip, h]

/-- A trailing newline is absorbed by `strip`. -/
theorem pyStrip_append_newline (s : String) : pyStrip (s ++ "\n") = pyStrip s := by
  have hd : (s ++ "\n").data = s.data ++ ['\n'] := String.data_append s "\n"
  have hnl : isWS '\n' = true := by decide
  simp [pyStrip, hd, stripC, rstripC, List.reverse_append, List.dropWhile, hnl]

/-- C6.  Combining exactly two samples with policy "ordered" and
case-numbering off yields the single sample whose input is
`i1 ++ "\n" ++ i2` and whose expected output is `o1 ++ "\n" ++ o2`, both
stripped of leading and trailing whitespace (cow.py lines 145–155: the
extra trailing newline added by the concatenation loop is absorbed by
the final `strip`).  Stated for arbitrary component strings, so in
particular for already-trimmed ones. -/
theorem orderedCombine_two (i1 o1 i2 o2 : String) :
    orderedCombine [(i1, o1), (i2, o2)] false =
      [(pyStrip (i1 ++ "\n" ++ i2), pyStrip (o1 ++ "\n" ++ o2))] := by
  simp only [orderedCombine, List.foldl]
  simp [pyStrip_append_newline]

/-- C7.  A timed-out run (`subprocess.TimeoutExpired`) and a run whose
filtered output exceeds the output limit (the `RuntimeError` of cow.py
line 61) are both caught by the `except Exception` handler of `check`,
which returns `False` — no exception reaches the sample loop, so the
loop counts the sample as failing, attempts all remaining samples, and
never enters the recovery branch (no diagnostic re-run). -/
theorem limit_and_timeout_nonfatal (raw test_output : String) (output_limit : Nat)
    (ire gpp : Bool) (rest : List RunResult) :
    check ProcResult.timedOut test_output output_limit ire true = .ret false ∧
    ((processOutput raw).length > output_limit →
      check (ProcResult.output raw) test_output output_limit ire true = .ret false) ∧
    runResultOfCheck (.ret false) ≠ RunResult.crash ∧
    (batchLoop gpp (RunResult.fail :: rest)).attempted = (batchLoop gpp rest).attempted + 1 ∧
    (batchLoop gpp (RunResult.fail :: rest)).diag = (batchLoop gpp rest).diag := by
  refine ⟨rfl, ?_, by simp [runResultOfCheck], rfl, rfl⟩
  intro h
  simp [check, h]

/-- C7 (witness). -/
theorem limit_and_timeout_nonfatal_witness :
    check ProcResult.timedOut "x" 2 false true = .ret false ∧
    ((processOutput "abc").length > 2 →
      check (ProcResult.output "abc") "x" 2 false true = .ret false) ∧
    (processOutput "abc").length > 2 :=
  ⟨(limit_and_timeout_nonfatal "abc" "x" 2 false false []).1,
   (limit_and_timeout_nonfatal "abc" "x" 2 false false []).2.1,
   by decide⟩

/-- C4 (counterexample).  The claim says the compared text is obtained
by removing debug lines "and then trimming the filtered result", so
that a removed debug line "never leaves residual blank lines".  The code
trims first (line 52) and never trims after the filter (line 54): on
captured output `"hello\n\nDEBUG x"` the code compares `"hello\n"` — a
residual trailing blank line — while filter-then-trim gives `"hello"`. -/
theorem output_filter_order_counterexample :
    processOutput "hello\n\nDEBUG x" = "hello\n" ∧
    specFilterThenTrim "hello\n\nDEBUG x" = "hello" ∧
    processOutput "hello\n\nDEBUG x" ≠ specFilterThenTrim "hello\n\nDEBUG x" := by
  decide

/-- The spec-worded debug-line removal agrees with the code's
`filter keepLine`. -/
theorem removeDebugLines_eq_filter :
    ∀ ls : List (List Char), removeDebugLines ls = ls.filter keepLine
  | [] => rfl
  | l :: ls => by
    have ih := removeDebugLines_eq_filter ls
    have hk : keepLine l = !(isDebugLine l) := by
      simp [keepLine, isDebugLine]
    cases h : isDebugLine l <;> simp [removeDebugLines, h, List.filter_cons, hk, ih]

/-- C4 (amended).  The text used for the output-limit check and for the
comparison is obtained by **first** trimming the captured stdout of
leading and trailing whitespace and **then** removing every line that
begins with the ANSI escape character or the literal token `"DEBUG"`;
no trim is applied after the filter, so a blank line adjacent to a
removed edge debug line can remain in the compared text. -/
theorem output_is_trim_then_filter (raw : String) :
    processOutput raw = specTrimThenFilter raw := by
  simp [processOutput, stripDebugLines, specTrimThenFilter, removeDebugLines_eq_filter]

/-- Pairing yields one pair per two segments (an unpairable trailing
segment, impossible after padding, is dropped). -/
theorem pairUp_length : ∀ l : List String, (pairUp l).length = l.length / 2
  | [] => by simp [pairUp]
  | [_] => by simp [pairUp]
  | _ :: _ :: rest => by
    have ih := pairUp_length rest
    simp [pairUp, ih]
    omega

/-- The `i`-th pair produced by `pairUp` is the stripped segments
`2i` and `2i+1`. -/
theorem pairUp_get : ∀ (l : List String) (i : Nat), 2 * i + 1 < l.length →
    (pairUp l)[i]? = some (pyStrip (l[2 * i]?.getD ""), pyStrip (l[2 * i + 1]?.getD ""))
  | [], i, h => by simp at h
  | [_], i, h => by simp at h
  | a :: b :: rest, 0, _ => by simp [pairUp]
  | a :: b :: rest, i + 1, h => by
    have hlt : 2 * i + 1 < rest.length := by simp at h; omega
    have ih := pairUp_get rest i hlt
    have e1 : 2 * (i + 1) = (2 * i + 1) + 1 := by ring
    have e2 : 2 * (i + 1) + 1 = ((2 * i + 1) + 1) + 1 := by ring
    rw [e2, e1]
    simp only [pairUp, List.getElem?_cons_succ]
    exact ih

/-- C3.  For file text splitting into `k` segments: an odd `k` yields
`(k+1)/2` samples whose last expected output is the empty string, an
even `k` yields `k/2` samples, and the `i`-th sample is the pair of
segments `2i` and `2i+1`, each stripped of leading and trailing
whitespace (cow.py lines 29–39). -/
theorem parse_samples_pairing (text : String) :
    ((reSplit text).length % 2 = 1 →
      (parse_samples text).length = ((reSplit text).length + 1) / 2 ∧
      (parse_samples text)[((reSplit text).length - 1) / 2]?.map Prod.snd = some "") ∧
    ((reSplit text).length % 2 = 0 →
      (parse_samples text).length = (reSplit text).length / 2) ∧
    (∀ i, 2 * i + 1 < (reSplit text).length →
      (parse_samples text)[i]? = some
        (pyStrip ((reSplit text)[2 * i]?.getD ""),
         pyStrip ((reSplit text)[2 * i + 1]?.getD ""))) := by
  by_cases hk : (reSplit text).length % 2 = 1
  · have hpad : parse_samples text = pairUp (reSplit text ++ [""]) := by
      simp [parse_samples, hk]
    refine ⟨fun _ => ⟨?_, ?_⟩, fun h0 => absurd h0 (by omega), fun i hi => ?_⟩
    · rw [hpad, pairUp_length]
      simp
    · have hj : 2 * (((reSplit text).length - 1) / 2) + 1 < (reSplit text ++ [""]).length := by
        simp
        omega
      rw [hpad, pairUp_get _ _ hj]
      have e : 2 * (((reSplit text).length - 1) / 2) + 1 = (reSplit text).length := by omega
      rw [e, List.getElem?_concat_length]
      rfl
    · have hj : 2 * i + 1 < (reSplit text ++ [""]).length := by
        simp
        omega
      rw [hpad, pairUp_get _ _ hj,
        List.getElem?_append_left (by omega), List.getElem?_append_left (by omega)]
  · have hpad : parse_samples text = pairUp (reSplit text) := by
      simp [parse_samples, hk]
    refine ⟨fun h1 => absurd h1 hk, fun _ => ?_, fun i hi => ?_⟩
    · rw [hpad, pairUp_length]
    · rw [hpad, pairUp_get _ _ hi]

/-- C3 (witness). -/
theorem parse_samples_pairing_witness :
    ((reSplit "a\n%%\nb\n%%\nc").length % 2 = 1) ∧
    ((parse_samples "a\n%%\nb\n%%\nc").length = ((reSplit "a\n%%\nb\n%%\nc").length + 1) / 2) ∧
    ((parse_samples "a\n%%\nb\n%%\nc")[((reSplit "a\n%%\nb\n%%\nc").length - 1) / 2]?.map
        Prod.snd = some "") ∧
    (2 * 0 + 1 < (reSplit "a\n%%\nb\n%%\nc").length) ∧
    ((parse_samples "a\n%%\nb\n%%\nc")[0]? = some
      (pyStrip ((reSplit "a\n%%\nb\n%%\nc")[2 * 0]?.getD ""),
       pyStrip ((reSplit "a\n%%\nb\n%%\nc")[2 * 0 + 1]?.getD ""))) :=
  ⟨by decide,
   ((parse_samples_pairing _).1 (by decide)).1,
   ((parse_samples_pairing _).1 (by decide)).2,
   by decide,
   (parse_samples_pairing _).2.2 0 (by decide)⟩

/-- One splitter step only ever appends to the completed segments. -/
theorem splitStep_segs (st : SplitState) (c : Char) :
    ∃ u, (splitStep st c).segs = st.segs ++ u := by
  unfold splitStep
  split
  · exact ⟨[], by simp⟩
  · split
    · exact ⟨[st.cur.reverse], rfl⟩
    · exact ⟨[], by simp⟩

/-- The splitter never removes completed segments. -/
theorem foldl_splitStep_segs : ∀ (l : List Char) (st : SplitState),
    ∃ t, (List.foldl splitStep st l).segs = st.segs ++ t
  | [], st => ⟨[], by simp⟩
  | c :: cs, st => by
    obtain ⟨u, hu⟩ := splitStep_segs st c
    obtain ⟨t, ht⟩ := foldl_splitStep_segs cs (splitStep st c)
    exact ⟨u ++ t, by simp [ht, hu]⟩

/-- A step that closes no segment moves its character into the pending
text: current segment plus pending percent run. -/
theorem splitStep_keeps (st : SplitState) (c : Char)
    (h : (splitStep st c).segs = st.segs) :
    (splitStep st c).cur.reverse ++ List.replicate (splitStep st c).pct '%'
      = st.cur.reverse ++ List.replicate st.pct '%' ++ [c] := by
  by_cases hc : c = '%'
  · subst hc
    simp [splitStep, List.replicate_succ']
  · by_cases hd : c = '\n' ∧ 2 ≤ st.pct
    · exfalso
      simp [splitStep, hc, hd] at h
    · simp [splitStep, hc, hd, List.reverse_replicate]

/-- If the whole run closes no segment, the pending text is the whole
input: the splitter is the identity on delimiter-free text. -/
theorem foldl_splitStep_one_segment : ∀ (l : List Char) (st : SplitState),
    (List.foldl splitStep st l).segs = st.segs →
    (List.foldl splitStep st l).cur.reverse ++
        List.replicate (List.foldl splitStep st l).pct '%'
      = st.cur.reverse ++ List.replicate st.pct '%' ++ l
  | [], st, _ => by simp
  | c :: cs, st, h => by
    simp only [List.foldl_cons] at h ⊢
    have hstep : (splitStep st c).segs = st.segs := by
      obtain ⟨u, hu⟩ := splitStep_segs st c
      obtain ⟨t, ht⟩ := foldl_splitStep_segs cs (splitStep st c)
      rw [ht, hu, List.append_assoc] at h
      have hnil : u ++ t = [] := by simpa using h
      have hu0 : u = [] := (List.append_eq_nil.mp hnil).1
      rw [hu, hu0, List.append_nil]
    have hrest : (List.foldl splitStep (splitStep st c) cs).segs = (splitStep st c).segs := by
      rw [hstep]
      exact h
    have ih := foldl_splitStep_one_segment cs (splitStep st c) hrest
    rw [ih, splitStep_keeps st c hstep]
    simp

/-- C9.  `parse_samples` is total on file text — it is a function in
this model, mirroring that the Python code raises on no input (the
split always yields at least one segment, the odd-length pad makes the
indexing loop safe, and the `except: pass` is unreachable): every text
yields at least one segment, `⌈k/2⌉` samples for `k` segments, and a
text with no delimiter at all yields exactly one sample, its input the
whole text stripped and its expected output the empty string. -/
theorem parse_samples_total (text : String) :
    1 ≤ (reSplit text).length ∧
    (parse_samples text).length = ((reSplit text).length + 1) / 2 ∧
    ((reSplit text).length = 1 → parse_samples text = [(pyStrip text, "")]) := by
  refine ⟨?_, ?_, ?_⟩
  · simp [reSplit, reSplitChars]
  · by_cases hk : (reSplit text).length % 2 = 1
    · rw [show parse_samples text = pairUp (reSplit text ++ [""]) from by
        simp [parse_samples, hk], pairUp_length]
      simp
    · rw [show parse_samples text = pairUp (reSplit text) from by
        simp [parse_samples, hk], pairUp_length]
      omega
  · intro h1
    have hsegs : (reSplitAux text.data).segs = [] := by
      have hlen : (reSplitChars text.data).length = 1 := by
        simpa [reSplit] using h1
      simpa [reSplitChars] using hlen
    have hone := foldl_splitStep_one_segment text.data ⟨[], [], 0⟩ hsegs
    have hchars : reSplitChars text.data = [text.data] := by
      have hsegs' : (List.foldl splitStep ⟨[], [], 0⟩ text.data).segs = [] := hsegs
      have hone' : (List.foldl splitStep ⟨[], [], 0⟩ text.data).cur.reverse ++
          List.replicate (List.foldl splitStep ⟨[], [], 0⟩ text.data).pct '%' = text.data := by
        simpa using hone
      simp only [reSplitChars, reSplitAux]
      rw [hsegs', hone']
      simp
    have hre : reSplit text = [text] := by
      rw [reSplit, hchars]
      have hmk : String.mk text.data = text := by
        cases text
        rfl
      simp [hmk]
    have h0 : pyStrip "" = "" := rfl
    simp [parse_samples, hre, pairUp, h0]

/-- C9 (witness). -/
theorem parse_samples_total_witness :
    (reSplit "abc").length = 1 ∧ parse_samples "abc" = [(pyStrip "abc", "")] :=
  ⟨by decide, (parse_samples_total "abc").2.2 (by decide)⟩

end Cow
